import Mathlib

/-!
Verification development for the financial document analyzer service
(src/main.py, src/worker.py, src/database.py).

The job lifecycle is shallowly embedded: the SQLAlchemy table `analyses`
becomes the structure `AnalysisRecord`, a database session becomes a list
of records threaded through each handler, the filesystem becomes the list
of existing file paths, and the CrewAI engine call becomes an
`Except String String` parameter (error message or report text).
Celery retry semantics (`self.retry(exc, countdown=5, max_retries=2)`)
are embedded as an explicit bounded redelivery loop.
-/

namespace FinDoc

/-- Job status, the `status` column of `analyses` (database.py line 25):
queued | processing | completed | failed. -/
inductive Status where
  | queued
  | processing
  | completed
  | failed
deriving DecidableEq, Repr

/-- The `AnalysisRecord` ORM model from database.py. Times are abstract
Nat instants; `duration_seconds` is an abstract Nat duration. -/
structure AnalysisRecord where
  id : String
  filename : String
  query : String
  status : Status := Status.queued
  result : Option String := none
  error : Option String := none
  created_at : Nat := 0
  completed_at : Option Nat := none
  duration_seconds : Option Nat := none
deriving DecidableEq, Repr

/-- The Store: the rows of the `analyses` table, in insertion order. -/
abbrev Store := List AnalysisRecord

/-- The filesystem: the set of existing file paths (as a list). -/
abbrev FS := List String

/-- db.query(AnalysisRecord).filter(AnalysisRecord.id == tid).first() -/
def lookupRecord (store : Store) (tid : String) : Option AnalysisRecord :=
  store.find? (fun r => r.id == tid)

/-- Mutating the fetched ORM row and committing: every row with the
given id is rewritten by f. -/
def updateRecord (store : Store) (tid : String) (f : AnalysisRecord → AnalysisRecord) : Store :=
  store.map (fun r => if r.id == tid then f r else r)

/-- Number of rows with a given id. -/
def countId (store : Store) (tid : String) : Nat :=
  (store.filter (fun r => r.id == tid)).length

/-- Writing the uploaded bytes to file_path: afterwards the path exists. -/
def addFile (p : String) (fs : FS) : FS :=
  if fs.contains p then fs else p :: fs

/-- The finally block of main.py lines 135-140 and worker.py lines 97-103:
if the path exists, attempt os.remove; a removal failure (removeOk = false)
is swallowed and leaves the file in place. -/
def cleanup (removeOk : Bool) (p : String) (fs : FS) : FS :=
  if fs.contains p then
    (if removeOk then fs.filter (fun q => ¬ (q == p)) else fs)
  else fs

/-- Python str.lower(), per character over the underlying sequence. -/
def strLower (s : String) : String :=
  String.mk (s.data.map Char.toLower)

/-- Python str.endswith(suffix) over the underlying character sequence. -/
def strEndsWith (s suffix : String) : Bool :=
  suffix.data.isSuffixOf s.data

/-- Python str.strip(): drop whitespace at both ends. -/
def strStrip (s : String) : String :=
  String.mk (((s.data.dropWhile Char.isWhitespace).reverse.dropWhile Char.isWhitespace).reverse)

/-- main.py line 74 and 166: file.filename.lower().endswith(".pdf") -/
def hasPdfExt (filename : String) : Bool :=
  strEndsWith (strLower filename) ".pdf"

/-- The default analysis prompt (main.py lines 67, 88, 150, 179). -/
def defaultQuery : String := "Analyze this financial document for investment insights"

/-- main.py lines 87-90 / 178-181: blank or whitespace-only query becomes
the default prompt, otherwise the query is stripped. -/
def normalizeQuery (q : String) : String :=
  if strStrip q = "" then defaultQuery else strStrip q

/-- main.py lines 78 and 170: the transient upload path for a job id. -/
def filePathFor (tid : String) : String :=
  "data/financial_document_" ++ tid ++ ".pdf"

/-- The responses an endpoint can produce: a sync success body, an async
queued body, or an HTTPException with a status code and detail. -/
inductive ApiResponse where
  | syncSuccess (tid q analysis filename : String) (duration : Nat)
  | asyncQueued (tid : String)
  | httpError (code : Nat) (detail : String)
deriving DecidableEq, Repr

/-- True exactly when the response is a 503 ServiceUnavailable. -/
def isServiceUnavailable : ApiResponse → Bool
  | ApiResponse.httpError c _ => c == 503
  | _ => false

/-- Result of one endpoint invocation: the response, the final Store and
filesystem, and the record snapshot taken at each db.commit. -/
structure EndpointResult where
  response : ApiResponse
  store : Store
  fs : FS
  commits : List AnalysisRecord
deriving Repr

/-- A freshly inserted Job record (db.add of an AnalysisRecord with only
id, filename, query and status given; created_at defaults to utcnow). -/
def newRecord (tid filename q : String) (st : Status) (now : Nat) : AnalysisRecord :=
  { id := tid, filename := filename, query := q, status := st, created_at := now }

/-- main.py lines 110-113: the sync success write. -/
def markCompletedSync (result : String) (t dur : Nat) (r : AnalysisRecord) : AnalysisRecord :=
  { r with status := Status.completed, result := some result,
           completed_at := some t, duration_seconds := some dur }

/-- main.py lines 128-130: the sync failure write; note duration_seconds
is not written on this path. -/
def markFailedSync (e : String) (t : Nat) (r : AnalysisRecord) : AnalysisRecord :=
  { r with status := Status.failed, error := some e, completed_at := some t }

/-- The sync endpoint POST /analyze (main.py analyze_document, lines 64-140).
engine is the outcome of run_crew_sync; removeOk tells whether the final
os.remove succeeds; now0 is utcnow at start, now1 at completion. -/
def analyze_document (engine : Except String String) (removeOk : Bool)
    (filename query tid : String) (now0 now1 : Nat)
    (store : Store) (fs : FS) : EndpointResult :=
  if ¬ hasPdfExt filename then
    { response := ApiResponse.httpError 400 "Only PDF files are supported.",
      store := store, fs := fs, commits := [] }
  else
    let file_path := filePathFor tid
    let fs1 := addFile file_path fs
    let q := normalizeQuery query
    let rec0 := newRecord tid filename q Status.processing now0
    let store1 := store ++ [rec0]
    match engine with
    | Except.ok result =>
        let dur := now1 - now0
        { response := ApiResponse.syncSuccess tid q result filename dur,
          store := updateRecord store1 tid (markCompletedSync result now1 dur),
          fs := cleanup removeOk file_path fs1,
          commits := [rec0, markCompletedSync result now1 dur rec0] }
    | Except.error e =>
        { response := ApiResponse.httpError 500 ("Error processing document: " ++ e),
          store := updateRecord store1 tid (markFailedSync e now1),
          fs := cleanup removeOk file_path fs1,
          commits := [rec0, markFailedSync e now1 rec0] }

/-- The async endpoint POST /analyze/async (main.py analyze_document_async,
lines 147-204). workerImportable models whether the worker module import
succeeds (the only guarded failure, answered with 503); enqueueOk models
whether apply_async reaches the broker - when it does not, the raised
exception leaves the handler unhandled (a 500-equivalent) after the queued
record was already committed. -/
def analyze_document_async (workerImportable enqueueOk : Bool)
    (filename query tid : String) (now : Nat)
    (store : Store) (fs : FS) : EndpointResult :=
  if ¬ workerImportable then
    { response := ApiResponse.httpError 503
        "Queue worker unavailable. Ensure Redis is running and Celery is installed.",
      store := store, fs := fs, commits := [] }
  else if ¬ hasPdfExt filename then
    { response := ApiResponse.httpError 400 "Only PDF files are supported.",
      store := store, fs := fs, commits := [] }
  else
    let file_path := filePathFor tid
    let fs1 := addFile file_path fs
    let q := normalizeQuery query
    let rec0 := newRecord tid filename q Status.queued now
    let store1 := store ++ [rec0]
    if enqueueOk then
      { response := ApiResponse.asyncQueued tid,
        store := store1, fs := fs1, commits := [rec0] }
    else
      { response := ApiResponse.httpError 500 "Failed to enqueue task: broker unreachable",
        store := store1, fs := fs1, commits := [rec0] }

/-- How one delivery of the Celery task ends: normal return (worker.py
line 81) or the retry exception raised out of the except block (line 95). -/
inductive TaskOutcome where
  | ok (result : String)
  | retryRaised (err : String)
deriving DecidableEq, Repr

/-- Result of one execution of analyze_document_task: the outcome, final
Store and filesystem, the record snapshot at each db.commit, and how many
times the CrewAI engine was invoked. -/
structure TaskRun where
  outcome : TaskOutcome
  store : Store
  fs : FS
  commits : List AnalysisRecord
  engineCalls : Nat
deriving Repr

/-- worker.py lines 55-57: record.status = "processing" (result and error
are left untouched). -/
def markProcessing (r : AnalysisRecord) : AnalysisRecord :=
  { r with status := Status.processing }

/-- worker.py lines 74-79: success write (error left untouched). -/
def markCompletedW (result : String) (t dur : Nat) (r : AnalysisRecord) : AnalysisRecord :=
  { r with status := Status.completed, result := some result,
           completed_at := some t, duration_seconds := some dur }

/-- worker.py lines 87-93: failure write (result left untouched); the
worker path stamps duration_seconds, unlike the sync failure path. -/
def markFailedW (e : String) (t dur : Nat) (r : AnalysisRecord) : AnalysisRecord :=
  { r with status := Status.failed, error := some e,
           completed_at := some t, duration_seconds := some dur }

/-- One delivery of the Celery task analyze_document_task (worker.py
lines 43-104). engine is the crew.kickoff outcome; now0/now1 are the
start and end instants of the attempt. A missing record skips every
database write but the engine is still invoked. -/
def analyze_document_task (engine : Except String String) (removeOk : Bool)
    (tid query file_path : String) (now0 now1 : Nat)
    (store : Store) (fs : FS) : TaskRun :=
  let found := lookupRecord store tid
  let store1 := if found.isSome then updateRecord store tid markProcessing else store
  let commits1 : List AnalysisRecord :=
    match found with
    | some r => [markProcessing r]
    | none => []
  match engine with
  | Except.ok result =>
      let dur := now1 - now0
      let store2 :=
        if found.isSome then updateRecord store1 tid (markCompletedW result now1 dur)
        else store1
      let commits2 : List AnalysisRecord :=
        match found with
        | some r => commits1 ++ [markCompletedW result now1 dur (markProcessing r)]
        | none => commits1
      { outcome := TaskOutcome.ok result, store := store2,
        fs := cleanup removeOk file_path fs, commits := commits2, engineCalls := 1 }
  | Except.error e =>
      let dur := now1 - now0
      let store2 :=
        if (lookupRecord store1 tid).isSome then updateRecord store1 tid (markFailedW e now1 dur)
        else store1
      let commits2 : List AnalysisRecord :=
        match lookupRecord store1 tid with
        | some r1 => commits1 ++ [markFailedW e now1 dur r1]
        | none => commits1
      { outcome := TaskOutcome.retryRaised e, store := store2,
        fs := cleanup removeOk file_path fs, commits := commits2, engineCalls := 1 }

/-- worker.py line 95: max_retries=2. -/
def maxRetries : Nat := 2

/-- worker.py line 95: countdown=5. -/
def retryCountdown : Nat := 5

/-- Observable trace of one delivery and all its Celery redeliveries. -/
structure RetrySim where
  attemptsRun : Nat
  delays : List Nat
  store : Store
  fs : FS
  commits : List AnalysisRecord
  fsAtStart : List FS
  finalOutcome : TaskOutcome
deriving Repr

/-- Celery redelivery loop for self.retry(countdown=5, max_retries=2):
attempt k runs the task; on a retryRaised outcome, while the remaining
retry budget is positive the delivery is scheduled again after
retryCountdown and re-run from the top; with the budget exhausted the
exception propagates and no further delivery occurs. engine, removeOk and
times give each attempt its engine outcome, removal success and
start/end instants. -/
def runAttempts (engine : Nat → Except String String) (removeOk : Nat → Bool)
    (times : Nat → Nat × Nat) (tid query file_path : String) :
    Nat → Nat → Store → FS → RetrySim
  | 0, k, store, fs =>
      let run := analyze_document_task (engine k) (removeOk k) tid query file_path
        (times k).1 (times k).2 store fs
      { attemptsRun := 1, delays := [], store := run.store, fs := run.fs,
        commits := run.commits, fsAtStart := [fs], finalOutcome := run.outcome }
  | Nat.succ rem, k, store, fs =>
      let run := analyze_document_task (engine k) (removeOk k) tid query file_path
        (times k).1 (times k).2 store fs
      match run.outcome with
      | TaskOutcome.ok r =>
          { attemptsRun := 1, delays := [], store := run.store, fs := run.fs,
            commits := run.commits, fsAtStart := [fs], finalOutcome := TaskOutcome.ok r }
      | TaskOutcome.retryRaised _ =>
          let rest := runAttempts engine removeOk times tid query file_path
            rem (k + 1) run.store run.fs
          { attemptsRun := rest.attemptsRun + 1,
            delays := retryCountdown :: rest.delays,
            store := rest.store, fs := rest.fs,
            commits := run.commits ++ rest.commits,
            fsAtStart := fs :: rest.fsAtStart,
            finalOutcome := rest.finalOutcome }

/-- A full delivery of one queued job: first attempt plus up to maxRetries
redeliveries. -/
def workerDelivery (engine : Nat → Except String String) (removeOk : Nat → Bool)
    (times : Nat → Nat × Nat) (tid query file_path : String)
    (store : Store) (fs : FS) : RetrySim :=
  runAttempts engine removeOk times tid query file_path maxRetries 0 store fs

/-- Ordering used by GET /history: created_at descending. -/
def createdDesc (a b : AnalysisRecord) : Prop :=
  b.created_at ≤ a.created_at

instance : DecidableRel createdDesc := fun a b => Nat.decLe _ _

instance : IsTotal AnalysisRecord createdDesc :=
  ⟨fun a b => Nat.le_total b.created_at a.created_at⟩

instance : IsTrans AnalysisRecord createdDesc :=
  ⟨fun _ _ _ hab hbc => Nat.le_trans hbc hab⟩

/-- GET /history (main.py get_analysis_history, lines 243-276): clamp the
limit to 100, order by created_at descending, optionally filter by
status, take at most the clamped limit. -/
def get_analysis_history (limit : Nat) (status : Option Status) (store : Store) :
    List AnalysisRecord :=
  let lim := min limit 100
  let ordered := List.insertionSort createdDesc store
  let filtered :=
    match status with
    | some s => ordered.filter (fun (r : AnalysisRecord) => r.status == s)
    | none => ordered
  filtered.take lim

/-- The record invariant of spec section 3: when the status is terminal,
exactly one of result and error is set; otherwise neither is set. -/
def recordInvariantB (r : AnalysisRecord) : Bool :=
  match r.status with
  | Status.completed => (r.result.isSome && !r.error.isSome) || (!r.result.isSome && r.error.isSome)
  | Status.failed => (r.result.isSome && !r.error.isSome) || (!r.result.isSome && r.error.isSome)
  | _ => !r.result.isSome && !r.error.isSome

/-- Position of a status in the forward order of the state machine;
both terminal states share the top rank. -/
def statusRank : Status → Nat
  | Status.queued => 0
  | Status.processing => 1
  | Status.completed => 2
  | Status.failed => 2

/-- A status trace never moves backward. -/
def forwardOnly : List Status → Bool
  | [] => true
  | [_] => true
  | a :: b :: t => (decide (statusRank a ≤ statusRank b)) && forwardOnly (b :: t)

/-- A fresh queued record, as created by an async submission; used as a
concrete Store row in witness and counterexample statements. -/
def demoRec : AnalysisRecord :=
  { id := "t", filename := "a.pdf", query := "q",
    status := Status.queued, created_at := 0 }

/-- Concrete three-row Store used for the history pagination scenario. -/
def demoStore3 : Store :=
  [demoRec,
   { demoRec with id := "u", created_at := 3 },
   { demoRec with id := "v", created_at := 1 }]

/-! ## Helper lemmas about the Store and filesystem embedding -/

theorem lookupRecord_append_fresh (store : Store) (tid : String) (r : AnalysisRecord)
    (hfresh : lookupRecord store tid = none) (hid : r.id = tid) :
    lookupRecord (store ++ [r]) tid = some r := by
  induction store with
  | nil =>
      have h : (r.id == tid) = true := by simp [hid]
      simp only [List.nil_append, lookupRecord, List.find?, h]
  | cons a t ih =>
      cases h : (a.id == tid) with
      | true =>
          simp only [lookupRecord, List.find?, h] at hfresh
          exact absurd hfresh (by simp)
      | false =>
          simp only [lookupRecord, List.find?, h] at hfresh
          simp only [lookupRecord, List.cons_append, List.find?, h]
          exact ih hfresh

theorem lookupRecord_updateRecord (store : Store) (tid : String)
    (f : AnalysisRecord → AnalysisRecord) (hf : ∀ r, (f r).id = r.id) :
    lookupRecord (updateRecord store tid f) tid = (lookupRecord store tid).map f := by
  induction store with
  | nil => rfl
  | cons a t ih =>
      cases h : (a.id == tid) with
      | true =>
          have hfa : ((f a).id == tid) = true := by rw [hf a]; exact h
          simp only [lookupRecord, updateRecord, List.map_cons, h, if_pos,
            List.find?, hfa]
          rfl
      | false =>
          simp only [lookupRecord, updateRecord, List.map_cons] at ih ⊢
          simp only [h, Bool.false_eq_true, if_false, List.find?]
          exact ih

theorem countId_append (store : Store) (tid : String) (r : AnalysisRecord) :
    countId (store ++ [r]) tid =
      countId store tid + (if r.id = tid then 1 else 0) := by
  by_cases h : r.id = tid
  · have hb : (r.id == tid) = true := by simp [h]
    simp [countId, List.filter_append, List.filter, hb, h]
  · have hb : (r.id == tid) = false := by simp [h]
    simp [countId, List.filter_append, List.filter, hb, h]

theorem countId_map_id_preserving (g : AnalysisRecord → AnalysisRecord)
    (hg : ∀ r, (g r).id = r.id) (store : Store) (tid2 : String) :
    countId (store.map g) tid2 = countId store tid2 := by
  induction store with
  | nil => rfl
  | cons a t ih =>
      simp only [countId, List.map_cons, List.filter] at ih ⊢
      cases h2 : (a.id == tid2) with
      | true =>
          have hga : ((g a).id == tid2) = true := by rw [hg a]; exact h2
          simp only [hga, h2, List.length_cons, ih]
      | false =>
          have hga : ((g a).id == tid2) = false := by rw [hg a]; exact h2
          simp only [hga, h2, ih]

theorem countId_updateRecord (store : Store) (tid tid2 : String)
    (f : AnalysisRecord → AnalysisRecord) (hf : ∀ r, (f r).id = r.id) :
    countId (updateRecord store tid f) tid2 = countId store tid2 := by
  refine countId_map_id_preserving _ (fun r => ?_) store tid2
  by_cases h : (r.id == tid) = true <;> simp [updateRecord, h, hf]

theorem not_mem_filter_ne (p : String) (fs : FS) :
    p ∉ fs.filter (fun q => ¬ (q == p)) := by
  intro hmem
  have h := List.of_mem_filter hmem
  simp at h

theorem not_mem_cleanup_true (p : String) (fs : FS) :
    p ∉ cleanup true p fs := by
  unfold cleanup
  cases h : fs.contains p with
  | true => simpa [h] using not_mem_filter_ne p fs
  | false =>
      simp only [h, Bool.false_eq_true, if_false, if_neg]
      intro hmem
      simp [List.contains_eq_any_beq] at h
      exact h hmem

theorem contains_cleanup_true (p : String) (fs : FS) :
    (cleanup true p fs).contains p = false := by
  simp only [List.contains_eq_any_beq]
  simp only [List.any_eq_false]
  intro x hx
  cases hb : (p == x) with
  | true =>
      have : p = x := by simpa using hb
      exact absurd (this ▸ hx) (not_mem_cleanup_true p fs)
  | false => simp

/-- The finally block of the worker runs on both outcomes: the final
filesystem of one task delivery is always the cleanup of its input. -/
theorem task_fs (e : Except String String) (removeOk : Bool)
    (tid query fp : String) (n0 n1 : Nat) (store : Store) (fs : FS) :
    (analyze_document_task e removeOk tid query fp n0 n1 store fs).fs
      = cleanup removeOk fp fs := by
  cases e <;> rfl

/-- A failing delivery on a store holding the record raises the retry
exception and leaves the record failed with the error and both timing
fields written (the prior result and error fields are not cleared). -/
theorem task_error_spec (e : String) (removeOk : Bool) (tid query fp : String)
    (n0 n1 : Nat) (store : Store) (fs : FS) (r : AnalysisRecord)
    (hfound : lookupRecord store tid = some r) :
    (analyze_document_task (Except.error e) removeOk tid query fp n0 n1 store fs).outcome
      = TaskOutcome.retryRaised e ∧
    lookupRecord (analyze_document_task (Except.error e) removeOk tid query fp n0 n1 store fs).store tid
      = some (markFailedW e n1 (n1 - n0) (markProcessing r)) ∧
    (analyze_document_task (Except.error e) removeOk tid query fp n0 n1 store fs).commits
      = [markProcessing r, markFailedW e n1 (n1 - n0) (markProcessing r)] := by
  have h1 : lookupRecord (updateRecord store tid markProcessing) tid
      = some (markProcessing r) := by
    rw [lookupRecord_updateRecord store tid markProcessing (fun _ => rfl), hfound]
    rfl
  refine ⟨rfl, ?_, ?_⟩
  · simp only [analyze_document_task, hfound, Option.isSome_some, if_true, h1]
    rw [lookupRecord_updateRecord (updateRecord store tid markProcessing) tid
      (markFailedW e n1 (n1 - n0)) (fun _ => rfl), h1]
    rfl
  · simp only [analyze_document_task, hfound, Option.isSome_some, if_true, h1]
    rfl

/-- A successful delivery on a store holding the record completes it:
result and both timing fields written, status completed (the prior error
field is not cleared). -/
theorem task_ok_spec (res : String) (removeOk : Bool) (tid query fp : String)
    (n0 n1 : Nat) (store : Store) (fs : FS) (r : AnalysisRecord)
    (hfound : lookupRecord store tid = some r) :
    (analyze_document_task (Except.ok res) removeOk tid query fp n0 n1 store fs).outcome
      = TaskOutcome.ok res ∧
    lookupRecord (analyze_document_task (Except.ok res) removeOk tid query fp n0 n1 store fs).store tid
      = some (markCompletedW res n1 (n1 - n0) (markProcessing r)) ∧
    (analyze_document_task (Except.ok res) removeOk tid query fp n0 n1 store fs).commits
      = [markProcessing r, markCompletedW res n1 (n1 - n0) (markProcessing r)] := by
  have h1 : lookupRecord (updateRecord store tid markProcessing) tid
      = some (markProcessing r) := by
    rw [lookupRecord_updateRecord store tid markProcessing (fun _ => rfl), hfound]
    rfl
  refine ⟨rfl, ?_, ?_⟩
  · simp only [analyze_document_task, hfound, Option.isSome_some, if_true]
    rw [lookupRecord_updateRecord (updateRecord store tid markProcessing) tid
      (markCompletedW res n1 (n1 - n0)) (fun _ => rfl), h1]
    rfl
  · simp only [analyze_document_task, hfound, Option.isSome_some, if_true]
    rfl

/-- Every database write of one delivery keys the same row set: the
number of rows with any given id is unchanged. -/
theorem task_countId (e : Except String String) (removeOk : Bool)
    (tid query fp : String) (n0 n1 : Nat) (store : Store) (fs : FS) (tid2 : String) :
    countId (analyze_document_task e removeOk tid query fp n0 n1 store fs).store tid2
      = countId store tid2 := by
  cases e with
  | ok res =>
      cases hl : lookupRecord store tid with
      | none =>
          simp [analyze_document_task, hl]
      | some r =>
          simp only [analyze_document_task, hl, Option.isSome_some, if_true]
          rw [countId_updateRecord (updateRecord store tid markProcessing) tid tid2
              (markCompletedW res n1 (n1 - n0)) (fun _ => rfl),
            countId_updateRecord store tid tid2 markProcessing (fun _ => rfl)]
  | error err =>
      cases hl : lookupRecord store tid with
      | none =>
          simp [analyze_document_task, hl]
      | some r =>
          have h1 : lookupRecord (updateRecord store tid markProcessing) tid
              = some (markProcessing r) := by
            rw [lookupRecord_updateRecord store tid markProcessing (fun _ => rfl), hl]
            rfl
          simp only [analyze_document_task, hl, Option.isSome_some, if_true, h1]
          rw [countId_updateRecord (updateRecord store tid markProcessing) tid tid2
              (markFailedW err n1 (n1 - n0)) (fun _ => rfl),
            countId_updateRecord store tid tid2 markProcessing (fun _ => rfl)]

theorem runAttempts_attempts_le (engine : Nat → Except String String)
    (removeOk : Nat → Bool) (times : Nat → Nat × Nat) (tid query fp : String) :
    ∀ (remaining k : Nat) (store : Store) (fs : FS),
      (runAttempts engine removeOk times tid query fp remaining k store fs).attemptsRun
        ≤ remaining + 1 := by
  intro remaining
  induction remaining with
  | zero =>
      intro k store fs
      simp [runAttempts]
  | succ rem ih =>
      intro k store fs
      simp only [runAttempts]
      cases h : (analyze_document_task (engine k) (removeOk k) tid query fp
          (times k).1 (times k).2 store fs).outcome with
      | ok r => simp
      | retryRaised e =>
          simpa using Nat.succ_le_succ (ih _ _ _)

theorem runAttempts_delays_fixed (engine : Nat → Except String String)
    (removeOk : Nat → Bool) (times : Nat → Nat × Nat) (tid query fp : String) :
    ∀ (remaining k : Nat) (store : Store) (fs : FS) (d : Nat),
      d ∈ (runAttempts engine removeOk times tid query fp remaining k store fs).delays →
      d = retryCountdown := by
  intro remaining
  induction remaining with
  | zero =>
      intro k store fs d hd
      simp [runAttempts] at hd
  | succ rem ih =>
      intro k store fs d hd
      simp only [runAttempts] at hd
      cases h : (analyze_document_task (engine k) (removeOk k) tid query fp
          (times k).1 (times k).2 store fs).outcome with
      | ok r => simp [h] at hd
      | retryRaised e =>
          simp only [h] at hd
          rcases List.mem_cons.mp hd with h2 | h2
          · exact h2
          · exact ih _ _ _ _ h2

theorem runAttempts_all_fail (engine : Nat → Except String String) (err : Nat → String)
    (removeOk : Nat → Bool) (times : Nat → Nat × Nat) (tid query fp : String)
    (hfail : ∀ k, engine k = Except.error (err k)) :
    ∀ (remaining k : Nat) (store : Store) (fs : FS) (r : AnalysisRecord),
      lookupRecord store tid = some r →
      (runAttempts engine removeOk times tid query fp remaining k store fs).attemptsRun
          = remaining + 1 ∧
      (runAttempts engine removeOk times tid query fp remaining k store fs).delays
          = List.replicate remaining retryCountdown ∧
      ∃ r2, lookupRecord
          (runAttempts engine removeOk times tid query fp remaining k store fs).store tid
          = some r2 ∧ r2.status = Status.failed ∧ r2.error = some (err (k + remaining)) := by
  intro remaining
  induction remaining with
  | zero =>
      intro k store fs r hfound
      have hspec := task_error_spec (err k) (removeOk k) tid query fp
        (times k).1 (times k).2 store fs r hfound
      simp only [runAttempts, hfail k]
      refine ⟨by simp, by simp, _, hspec.2.1, rfl, rfl⟩
  | succ rem ih =>
      intro k store fs r hfound
      have hspec := task_error_spec (err k) (removeOk k) tid query fp
        (times k).1 (times k).2 store fs r hfound
      have hrest := ih (k + 1)
        (analyze_document_task (Except.error (err k)) (removeOk k) tid query fp
          (times k).1 (times k).2 store fs).store
        (analyze_document_task (Except.error (err k)) (removeOk k) tid query fp
          (times k).1 (times k).2 store fs).fs
        (markFailedW (err k) (times k).2 ((times k).2 - (times k).1) (markProcessing r))
        hspec.2.1
      simp only [runAttempts, hfail k, hspec.1]
      obtain ⟨ha, hd, r2, hl, hs, he⟩ := hrest
      refine ⟨?_, ?_, r2, ?_, hs, ?_⟩
      · simp [ha]
      · simp [hd, List.replicate_succ]
      · exact hl
      · rw [he]
        have harith : k + 1 + rem = k + (rem + 1) := by omega
        rw [harith]

theorem not_mem_of_contains_false (p : String) (fs : FS) (h : fs.contains p = false) :
    p ∉ fs := by
  intro hm
  simp [List.contains_eq_any_beq] at h
  exact h hm

theorem runAttempts_fsAtStart_all (engine : Nat → Except String String)
    (times : Nat → Nat × Nat) (tid query fp : String) :
    ∀ (remaining k : Nat) (store : Store) (fs : FS),
      fs.contains fp = false →
      ((runAttempts engine (fun _ => true) times tid query fp remaining k store fs).fsAtStart).all
        (fun f2 => !(f2.contains fp)) = true := by
  intro remaining
  induction remaining with
  | zero =>
      intro k store fs h
      simp [runAttempts]
      exact not_mem_of_contains_false fp fs h
  | succ rem ih =>
      intro k store fs h
      simp only [runAttempts]
      cases ho : (analyze_document_task (engine k) true tid query fp
          (times k).1 (times k).2 store fs).outcome with
      | ok r =>
          simp [ho]
          exact not_mem_of_contains_false fp fs h
      | retryRaised e =>
          have hfs : (analyze_document_task (engine k) true tid query fp
              (times k).1 (times k).2 store fs).fs.contains fp = false := by
            rw [task_fs]
            exact contains_cleanup_true fp fs
          simp only [ho, List.all_cons, h, Bool.not_false, Bool.true_and]
          exact ih (k + 1) _ _ hfs

theorem runAttempts_fsAtStart_tail (engine : Nat → Except String String)
    (times : Nat → Nat × Nat) (tid query fp : String) :
    ∀ (remaining k : Nat) (store : Store) (fs : FS),
      (((runAttempts engine (fun _ => true) times tid query fp remaining k store fs).fsAtStart).drop 1).all
        (fun f2 => !(f2.contains fp)) = true := by
  intro remaining
  cases remaining with
  | zero =>
      intro k store fs
      simp [runAttempts]
  | succ rem =>
      intro k store fs
      simp only [runAttempts]
      cases ho : (analyze_document_task (engine k) true tid query fp
          (times k).1 (times k).2 store fs).outcome with
      | ok r => simp [ho]
      | retryRaised e =>
          have hfs : (analyze_document_task (engine k) true tid query fp
              (times k).1 (times k).2 store fs).fs.contains fp = false := by
            rw [task_fs]
            exact contains_cleanup_true fp fs
          simp only [ho, List.drop_succ_cons, List.drop_zero]
          exact runAttempts_fsAtStart_all engine times tid query fp rem (k + 1) _ _ hfs

/-! ## Claim theorems -/

/-- Claim C1, counterexample: with the worker module importable but the
broker enqueue failing (Queue cannot accept work), the async endpoint
does not signal ServiceUnavailable - the enqueue exception surfaces as a
500-equivalent - and the queued Job record is left behind in the Store. -/
theorem C1_counterexample :
    isServiceUnavailable
      (analyze_document_async true false "a.pdf" "q" "t1" 0 [] []).response = false ∧
    (lookupRecord (analyze_document_async true false "a.pdf" "q" "t1" 0 [] []).store "t1").isSome
      = true := by
  decide

/-- Claim C1, amended: ServiceUnavailable is signaled only when the worker
module cannot be imported, and in that case no Job record, commit or file
write happens; when the import succeeds but the enqueue itself fails, the
failure surfaces as a 500-equivalent and the already committed queued
record remains in the Store. -/
theorem C1_amended (enqueueOk : Bool) (filename query tid : String) (now : Nat)
    (store : Store) (fs : FS) (hext : hasPdfExt filename = true) :
    ((analyze_document_async false enqueueOk filename query tid now store fs).response
        = ApiResponse.httpError 503
          "Queue worker unavailable. Ensure Redis is running and Celery is installed." ∧
      (analyze_document_async false enqueueOk filename query tid now store fs).store = store ∧
      (analyze_document_async false enqueueOk filename query tid now store fs).fs = fs ∧
      (analyze_document_async false enqueueOk filename query tid now store fs).commits = []) ∧
    ((analyze_document_async true false filename query tid now store fs).response
        = ApiResponse.httpError 500 "Failed to enqueue task: broker unreachable" ∧
      countId (analyze_document_async true false filename query tid now store fs).store tid
        = countId store tid + 1) := by
  refine ⟨⟨?_, ?_, ?_, ?_⟩, ?_, ?_⟩
  · simp [analyze_document_async]
  · simp [analyze_document_async]
  · simp [analyze_document_async]
  · simp [analyze_document_async]
  · simp [analyze_document_async, hext]
  · simp only [analyze_document_async, hext]
    rw [if_neg (by simp), if_neg (by simp), if_neg (by simp)]
    rw [countId_append]
    simp [newRecord]

/-- Claim C1 witness: a concrete enqueue-failure submission is answered
with the 500-equivalent of the unhandled apply_async exception. -/
theorem C1_witness :
    (analyze_document_async true false "a.pdf" "q" "t1" 7 [] []).response
      = ApiResponse.httpError 500 "Failed to enqueue task: broker unreachable" :=
  ((C1_amended false "a.pdf" "q" "t1" 7 [] [] (by decide)).2).1

/-- Claim C3, counterexample: invoking the worker task with a job id
absent from the Store does not signal NotFound and does not stop: the
engine is still invoked once and the task completes normally with no
status write. -/
theorem C3_counterexample :
    (analyze_document_task (Except.ok "report") true "t" "q" "p" 0 1 [] []).outcome
      = TaskOutcome.ok "report" ∧
    (analyze_document_task (Except.ok "report") true "t" "q" "p" 0 1 [] []).commits = [] ∧
    (analyze_document_task (Except.ok "report") true "t" "q" "p" 0 1 [] []).engineCalls = 1 := by
  decide

/-- Claim C3, amended: when the job id is absent from the Store the worker
performs no Store write and leaves the Store unchanged, but it does not
signal NotFound and does not stop early: the document analysis engine is
still invoked. -/
theorem C3_amended (engine : Except String String) (removeOk : Bool)
    (tid query fp : String) (n0 n1 : Nat) (store : Store) (fs : FS)
    (habsent : lookupRecord store tid = none) :
    (analyze_document_task engine removeOk tid query fp n0 n1 store fs).commits = [] ∧
    (analyze_document_task engine removeOk tid query fp n0 n1 store fs).store = store ∧
    (analyze_document_task engine removeOk tid query fp n0 n1 store fs).engineCalls = 1 := by
  cases engine <;> simp [analyze_document_task, habsent]

/-- Claim C3 witness: concrete run on an empty Store. -/
theorem C3_witness :
    (analyze_document_task (Except.error "boom") true "t" "q" "p" 0 1 [] []).commits = [] ∧
    (analyze_document_task (Except.error "boom") true "t" "q" "p" 0 1 [] []).store = [] ∧
    (analyze_document_task (Except.error "boom") true "t" "q" "p" 0 1 [] []).engineCalls = 1 :=
  C3_amended (Except.error "boom") true "t" "q" "p" 0 1 [] [] (by decide)

/-- Claim C4, counterexample: a failing sync execution surfaces a 500 and
persists status failed with error and completed_at set, but leaves
duration_seconds unset - the timing fields are not stamped the same way
as on success. -/
theorem C4_counterexample :
    (analyze_document (Except.error "boom") true "doc.pdf" "q" "t" 0 7 [] []).response
      = ApiResponse.httpError 500 "Error processing document: boom" ∧
    (lookupRecord (analyze_document (Except.error "boom") true "doc.pdf" "q" "t" 0 7 [] []).store "t").map
      (fun r => (r.status, r.error, r.completed_at, r.duration_seconds))
      = some (Status.failed, some "boom", some 7, none) := by
  decide

/-- Claim C4, amended: for every sync submission whose execution fails
after the Job record was created, the endpoint surfaces a 500-equivalent
and the persisted record has status failed, the error message, and
completed_at stamped; duration_seconds however is left unset, unlike the
success path. -/
theorem C4_amended (e : String) (removeOk : Bool) (filename query tid : String)
    (n0 n1 : Nat) (store : Store) (fs : FS)
    (hext : hasPdfExt filename = true)
    (hfresh : lookupRecord store tid = none) :
    (analyze_document (Except.error e) removeOk filename query tid n0 n1 store fs).response
      = ApiResponse.httpError 500 ("Error processing document: " ++ e) ∧
    (lookupRecord
        (analyze_document (Except.error e) removeOk filename query tid n0 n1 store fs).store tid).map
      (fun r => (r.status, r.error, r.completed_at, r.duration_seconds))
      = some (Status.failed, some e, some n1, none) := by
  constructor
  · simp [analyze_document, hext]
  · simp only [analyze_document, hext]
    rw [if_neg (by simp)]
    rw [lookupRecord_updateRecord
        (store ++ [newRecord tid filename (normalizeQuery query) Status.processing n0]) tid
        (markFailedSync e n1) (fun _ => rfl),
      lookupRecord_append_fresh store tid
        (newRecord tid filename (normalizeQuery query) Status.processing n0) hfresh rfl]
    rfl

/-- Claim C4 witness: concrete failing sync run. -/
theorem C4_witness :
    (analyze_document (Except.error "crash") false "r.pdf" "q2" "t9" 3 8 [] ["x"]).response
      = ApiResponse.httpError 500 "Error processing document: crash" :=
  (C4_amended "crash" false "r.pdf" "q2" "t9" 3 8 [] ["x"] (by decide) (by decide)).1

/-- Claim C9: a submission whose filename lacks the .pdf extension is
rejected with a 400 InvalidInput on both the sync and the async path
(given the async import guard passes), with the Store, the filesystem and
the commit list untouched. -/
theorem C9_invalid_ext (engine : Except String String) (removeOk enqueueOk : Bool)
    (filename query tid : String) (n0 n1 now : Nat) (store : Store) (fs : FS)
    (hbad : hasPdfExt filename = false) :
    ((analyze_document engine removeOk filename query tid n0 n1 store fs).response
        = ApiResponse.httpError 400 "Only PDF files are supported." ∧
      (analyze_document engine removeOk filename query tid n0 n1 store fs).store = store ∧
      (analyze_document engine removeOk filename query tid n0 n1 store fs).fs = fs ∧
      (analyze_document engine removeOk filename query tid n0 n1 store fs).commits = []) ∧
    ((analyze_document_async true enqueueOk filename query tid now store fs).response
        = ApiResponse.httpError 400 "Only PDF files are supported." ∧
      (analyze_document_async true enqueueOk filename query tid now store fs).store = store ∧
      (analyze_document_async true enqueueOk filename query tid now store fs).fs = fs ∧
      (analyze_document_async true enqueueOk filename query tid now store fs).commits = []) := by
  refine ⟨⟨?_, ?_, ?_, ?_⟩, ⟨?_, ?_, ?_, ?_⟩⟩ <;>
    simp [analyze_document, analyze_document_async, hbad]

/-- Claim C9 witness: concrete rejected submission with a .txt filename. -/
theorem C9_witness :
    (analyze_document (Except.ok "r") true "doc.txt" "q" "t" 0 1 [] []).response
      = ApiResponse.httpError 400 "Only PDF files are supported." ∧
    (analyze_document_async true true "doc.txt" "q" "t" 0 [] []).store = [] :=
  ⟨(C9_invalid_ext (Except.ok "r") true true "doc.txt" "q" "t" 0 1 0 [] [] (by decide)).1.1,
   (C9_invalid_ext (Except.ok "r") true true "doc.txt" "q" "t" 0 1 0 [] [] (by decide)).2.2.1⟩

/-- Claim C2, counterexample: a failed delivery followed by a successful
redelivery of the same job leaves the record completed with BOTH result
and error set - the error field of the prior attempt is never cleared, so
the exactly-one invariant fails on retried executions. -/
theorem C2_counterexample :
    ((lookupRecord (analyze_document_task (Except.ok "report") true "t" "q" "p" 2 3
        (analyze_document_task (Except.error "boom") true "t" "q" "p" 0 1 [demoRec] []).store
        []).store "t").map
      (fun r => (r.status, r.result.isSome, r.error.isSome)))
      = some (Status.completed, true, true) := by
  decide

/-- Claim C2, amended: every commit of the sync endpoint and of the async
submission satisfies the record invariant (exactly one of result/error in
a terminal status, neither otherwise), and so does every commit of a
worker delivery started on a record whose result and error are still
unset (a first, non-retried execution); a retried execution starts from a
failed record with error set and can violate the invariant. -/
theorem C2_amended (engineS engineW : Except String String)
    (removeOkS removeOkW enqueueOk : Bool)
    (filenameS filenameA queryS queryA queryW tidS tidA tidW fp : String)
    (n0 n1 m0 m1 now : Nat) (storeS storeA storeW : Store) (fsS fsA fsW : FS)
    (r : AnalysisRecord)
    (hfound : lookupRecord storeW tidW = some r)
    (hres : r.result = none) (herr : r.error = none) :
    ((analyze_document engineS removeOkS filenameS queryS tidS n0 n1 storeS fsS).commits.all
        recordInvariantB = true) ∧
    ((analyze_document_async true enqueueOk filenameA queryA tidA now storeA fsA).commits.all
        recordInvariantB = true) ∧
    ((analyze_document_task engineW removeOkW tidW queryW fp m0 m1 storeW fsW).commits.all
        recordInvariantB = true) := by
  refine ⟨?_, ?_, ?_⟩
  · by_cases hx : hasPdfExt filenameS = true
    · cases engineS <;>
        simp [analyze_document, hx, recordInvariantB, newRecord,
          markCompletedSync, markFailedSync]
    · simp [analyze_document, hx]
  · by_cases hx : hasPdfExt filenameA = true
    · cases enqueueOk <;>
        simp [analyze_document_async, hx, recordInvariantB, newRecord]
    · simp [analyze_document_async, hx]
  · cases engineW with
    | ok res =>
        rw [(task_ok_spec res removeOkW tidW queryW fp m0 m1 storeW fsW r hfound).2.2]
        simp [recordInvariantB, markProcessing, markCompletedW, hres, herr]
    | error e =>
        rw [(task_error_spec e removeOkW tidW queryW fp m0 m1 storeW fsW r hfound).2.2]
        simp [recordInvariantB, markProcessing, markFailedW, hres, herr]

/-- Claim C2 witness: a concrete first failing delivery on a fresh queued
record keeps the invariant at every commit. -/
theorem C2_witness :
    ((analyze_document_task (Except.error "boom") true "t" "q" "p" 0 1 [demoRec] []).commits.all
        recordInvariantB = true) :=
  (C2_amended (Except.ok "r") (Except.error "boom") true true true
    "a.pdf" "a.pdf" "q" "q" "q" "t" "t" "t" "p" 0 1 0 1 0
    [] [] [demoRec] [] [] [] demoRec (by decide) rfl rfl).2.2

/-- Claim C5, counterexample: with a failing engine, the Celery
redelivery re-marks the already failed record as processing - the commit
trace of one delivery with retries moves the status backward from a
terminal state. -/
theorem C5_counterexample :
    forwardOnly ((workerDelivery (fun _ => Except.error "boom") (fun _ => true)
        (fun k => (k, k + 1)) "t" "q" "p" [demoRec] []).commits.map
        (fun r => r.status)) = false := by
  decide

/-- Claim C5, amended: every valid submission with a fresh job id creates
exactly one Store record for that id - the sync endpoint (insert plus
in-place update) and the async endpoint each leave the per-id row count
at one, and worker writes never change that count; within a single
execution - the sync endpoint inline or one worker attempt - the status
trace of the commits is processing followed by the terminal status, so
the processing write precedes the terminal write; a retried worker
delivery however re-enters processing from the failed state. -/
theorem C5_amended (engineS engine : Except String String)
    (enqueueOk removeOkS removeOk : Bool)
    (filenameS filename queryS query tidS tid queryW fp : String)
    (s0 s1 now n0 n1 : Nat)
    (storeS storeA storeW : Store) (fsS fsA fsW : FS) (r : AnalysisRecord)
    (hextS : hasPdfExt filenameS = true)
    (hfreshS : countId storeS tidS = 0)
    (hext : hasPdfExt filename = true)
    (hfresh : countId storeA tid = 0)
    (hfound : lookupRecord storeW tid = some r) :
    countId (analyze_document engineS removeOkS filenameS queryS tidS s0 s1 storeS fsS).store tidS
      = 1 ∧
    ((analyze_document engineS removeOkS filenameS queryS tidS s0 s1 storeS fsS).commits.map
        (fun c => c.status) = [Status.processing, Status.completed] ∨
     (analyze_document engineS removeOkS filenameS queryS tidS s0 s1 storeS fsS).commits.map
        (fun c => c.status) = [Status.processing, Status.failed]) ∧
    countId (analyze_document_async true enqueueOk filename query tid now storeA fsA).store tid
      = 1 ∧
    countId (analyze_document_task engine removeOk tid queryW fp n0 n1 storeW fsW).store tid
      = countId storeW tid ∧
    ((analyze_document_task engine removeOk tid queryW fp n0 n1 storeW fsW).commits.map
        (fun c => c.status) = [Status.processing, Status.completed] ∨
     (analyze_document_task engine removeOk tid queryW fp n0 n1 storeW fsW).commits.map
        (fun c => c.status) = [Status.processing, Status.failed]) := by
  refine ⟨?_, ?_, ?_, task_countId engine removeOk tid queryW fp n0 n1 storeW fsW tid, ?_⟩
  · cases engineS with
    | ok res =>
        simp only [analyze_document, hextS]
        rw [if_neg (by simp)]
        rw [countId_updateRecord
            (storeS ++ [newRecord tidS filenameS (normalizeQuery queryS) Status.processing s0])
            tidS tidS (markCompletedSync res s1 (s1 - s0)) (fun _ => rfl),
          countId_append]
        simp [newRecord, hfreshS]
    | error e =>
        simp only [analyze_document, hextS]
        rw [if_neg (by simp)]
        rw [countId_updateRecord
            (storeS ++ [newRecord tidS filenameS (normalizeQuery queryS) Status.processing s0])
            tidS tidS (markFailedSync e s1) (fun _ => rfl),
          countId_append]
        simp [newRecord, hfreshS]
  · cases engineS with
    | ok res =>
        left
        simp [analyze_document, hextS, newRecord, markCompletedSync]
    | error e =>
        right
        simp [analyze_document, hextS, newRecord, markFailedSync]
  · cases enqueueOk <;>
      (simp only [analyze_document_async, hext]
       rw [if_neg (by simp), if_neg (by simp)]
       simp [countId_append, hfresh, newRecord])
  · cases engine with
    | ok res =>
        rw [(task_ok_spec res removeOk tid queryW fp n0 n1 storeW fsW r hfound).2.2]
        left
        simp [markProcessing, markCompletedW]
    | error e =>
        rw [(task_error_spec e removeOk tid queryW fp n0 n1 storeW fsW r hfound).2.2]
        right
        simp [markProcessing, markFailedW]

/-- Claim C5 witness: a concrete sync submission with a fresh id leaves
exactly one record for that id, and a concrete async submission does
too. -/
theorem C5_witness :
    countId (analyze_document (Except.ok "r") true "a.pdf" "q" "s" 0 1 [] []).store "s" = 1 ∧
    countId (analyze_document_async true true "a.pdf" "q" "t" 0 [] []).store "t" = 1 :=
  ⟨(C5_amended (Except.ok "r") (Except.ok "r") true true true "a.pdf" "a.pdf" "q" "q" "s" "t"
      "q" "p" 0 1 0 0 1 [] [] [demoRec] [] [] [] demoRec
      (by decide) (by decide) (by decide) (by decide) (by decide)).1,
   (C5_amended (Except.ok "r") (Except.ok "r") true true true "a.pdf" "a.pdf" "q" "q" "s" "t"
      "q" "p" 0 1 0 0 1 [] [] [demoRec] [] [] [] demoRec
      (by decide) (by decide) (by decide) (by decide) (by decide)).2.2.1⟩

/-- Claim C6: the worker retries a failing delivery exactly maxRetries=2
further times beyond the first attempt with a fixed delay of
retryCountdown=5 between attempts; after the budget is exhausted the
record is left failed with the last error recorded and no further
delivery occurs; for any engine behavior, attempts never exceed
1 + maxRetries and every scheduled delay equals retryCountdown. -/
theorem C6_retry_budget (engine : Nat → Except String String) (err : Nat → String)
    (removeOk : Nat → Bool) (times : Nat → Nat × Nat)
    (tid query fp : String) (store : Store) (fs : FS) (r : AnalysisRecord)
    (hfound : lookupRecord store tid = some r)
    (hfail : ∀ k, engine k = Except.error (err k)) :
    (workerDelivery engine removeOk times tid query fp store fs).attemptsRun
      = 1 + maxRetries ∧
    (workerDelivery engine removeOk times tid query fp store fs).delays
      = List.replicate maxRetries retryCountdown ∧
    (∃ r2, lookupRecord (workerDelivery engine removeOk times tid query fp store fs).store tid
        = some r2 ∧ r2.status = Status.failed ∧ r2.error = some (err maxRetries)) ∧
    (∀ (engine2 : Nat → Except String String) (removeOk2 : Nat → Bool)
        (times2 : Nat → Nat × Nat) (store2 : Store) (fs2 : FS),
      (workerDelivery engine2 removeOk2 times2 tid query fp store2 fs2).attemptsRun
          ≤ 1 + maxRetries ∧
      ∀ d ∈ (workerDelivery engine2 removeOk2 times2 tid query fp store2 fs2).delays,
        d = retryCountdown) := by
  obtain ⟨ha, hd, r2, hl, hs, he⟩ := runAttempts_all_fail engine err removeOk times
    tid query fp hfail maxRetries 0 store fs r hfound
  refine ⟨?_, ?_, ⟨r2, ?_, hs, ?_⟩, ?_⟩
  · rw [workerDelivery, ha, Nat.add_comm]
  · rw [workerDelivery, hd]
  · rw [workerDelivery]
    exact hl
  · rw [he]
    simp
  · intro engine2 removeOk2 times2 store2 fs2
    refine ⟨?_, ?_⟩
    · rw [workerDelivery, Nat.add_comm]
      exact runAttempts_attempts_le engine2 removeOk2 times2 tid query fp maxRetries 0 store2 fs2
    · intro d hd2
      exact runAttempts_delays_fixed engine2 removeOk2 times2 tid query fp maxRetries 0
        store2 fs2 d hd2

/-- Claim C6 witness: a concrete always-failing delivery runs exactly
three attempts. -/
theorem C6_witness :
    (workerDelivery (fun _ => Except.error "boom") (fun _ => true) (fun k => (k, k + 1))
      "t" "q" "p" [demoRec] []).attemptsRun = 1 + maxRetries :=
  (C6_retry_budget (fun _ => Except.error "boom") (fun _ => "boom") (fun _ => true)
    (fun k => (k, k + 1)) "t" "q" "p" [demoRec] [] demoRec (by decide)
    (fun _ => rfl)).1

/-- Claim C7: on every exit path of the executor - sync success, sync
failure, worker success, worker failure - the response, the Store and the
commit trace are identical whether the final file removal succeeds or
fails (a cleanup failure is swallowed and never masks the outcome), and
when removal succeeds the transient file is gone from the filesystem. -/
theorem C7_cleanup (engine engineW : Except String String) (b bW : Bool)
    (filename query tid queryW tidW fp : String) (n0 n1 m0 m1 : Nat)
    (store storeW : Store) (fs fsW : FS)
    (hext : hasPdfExt filename = true) :
    ((analyze_document engine b filename query tid n0 n1 store fs).response
        = (analyze_document engine true filename query tid n0 n1 store fs).response ∧
      (analyze_document engine b filename query tid n0 n1 store fs).store
        = (analyze_document engine true filename query tid n0 n1 store fs).store ∧
      (analyze_document engine b filename query tid n0 n1 store fs).commits
        = (analyze_document engine true filename query tid n0 n1 store fs).commits ∧
      filePathFor tid ∉ (analyze_document engine true filename query tid n0 n1 store fs).fs) ∧
    ((analyze_document_task engineW bW tidW queryW fp m0 m1 storeW fsW).outcome
        = (analyze_document_task engineW true tidW queryW fp m0 m1 storeW fsW).outcome ∧
      (analyze_document_task engineW bW tidW queryW fp m0 m1 storeW fsW).store
        = (analyze_document_task engineW true tidW queryW fp m0 m1 storeW fsW).store ∧
      (analyze_document_task engineW bW tidW queryW fp m0 m1 storeW fsW).commits
        = (analyze_document_task engineW true tidW queryW fp m0 m1 storeW fsW).commits ∧
      fp ∉ (analyze_document_task engineW true tidW queryW fp m0 m1 storeW fsW).fs) := by
  refine ⟨⟨?_, ?_, ?_, ?_⟩, ?_, ?_, ?_, ?_⟩
  · by_cases hc : hasPdfExt filename = true <;> cases engine <;>
      simp [analyze_document, hc]
  · by_cases hc : hasPdfExt filename = true <;> cases engine <;>
      simp [analyze_document, hc]
  · by_cases hc : hasPdfExt filename = true <;> cases engine <;>
      simp [analyze_document, hc]
  · cases engine <;>
      (simp only [analyze_document, hext]
       rw [if_neg (by simp)]
       exact not_mem_cleanup_true (filePathFor tid) _)
  · cases engineW <;> rfl
  · cases engineW <;> rfl
  · cases engineW <;> rfl
  · rw [task_fs]
    exact not_mem_cleanup_true fp fsW

/-- Claim C7 witness: concrete sync failure with failing cleanup yields
the same response as with successful cleanup, and successful cleanup
removes the file. -/
theorem C7_witness :
    (analyze_document (Except.error "boom") false "a.pdf" "q" "t" 0 1 [] []).response
      = (analyze_document (Except.error "boom") true "a.pdf" "q" "t" 0 1 [] []).response ∧
    filePathFor "t" ∉ (analyze_document (Except.error "boom") true "a.pdf" "q" "t" 0 1 [] []).fs :=
  ⟨(C7_cleanup (Except.error "boom") (Except.ok "r") false true "a.pdf" "q" "t" "q" "t" "p"
      0 1 0 1 [] [] [] [] (by decide)).1.1,
   (C7_cleanup (Except.error "boom") (Except.ok "r") false true "a.pdf" "q" "t" "q" "t" "p"
      0 1 0 1 [] [] [] [] (by decide)).1.2.2.2⟩

/-- Claim C8: history listing returns at most min(limit, 100) records,
ordered by created_at descending; a limit of 150 yields at most 100
records; a limit of 5 over a three-record store yields exactly those
three records. -/
theorem C8_history (limit : Nat) (status : Option Status) (store store3 : Store)
    (h3 : store3.length = 3) :
    (get_analysis_history limit status store).length ≤ min limit 100 ∧
    List.Sorted createdDesc (get_analysis_history limit status store) ∧
    (get_analysis_history 150 status store).length ≤ 100 ∧
    (get_analysis_history 5 none store3).length = 3 ∧
    (get_analysis_history 5 none store3).Perm store3 := by
  have htake : (List.insertionSort createdDesc store3).take 5
      = List.insertionSort createdDesc store3 := by
    refine List.take_of_length_le ?_
    rw [List.length_insertionSort, h3]
    omega
  refine ⟨?_, ?_, ?_, ?_, ?_⟩
  · cases status <;>
      (simp only [get_analysis_history]
       exact List.length_take_le _ _)
  · cases status with
    | none =>
        simp only [get_analysis_history]
        exact (List.sorted_insertionSort createdDesc store).sublist
          (List.take_sublist _ _)
    | some s =>
        simp only [get_analysis_history]
        exact (((List.sorted_insertionSort createdDesc store).filter _).sublist
          (List.take_sublist _ _))
  · cases status <;>
      (simp only [get_analysis_history]
       exact (List.length_take_le _ _).trans (by norm_num))
  · have h5 : min 5 100 = 5 := by norm_num
    simp only [get_analysis_history, h5, htake]
    rw [List.length_insertionSort, h3]
  · have h5 : min 5 100 = 5 := by norm_num
    simp only [get_analysis_history, h5, htake]
    exact List.perm_insertionSort createdDesc store3

/-- Claim C8 witness: the concrete three-record store with limit 5. -/
theorem C8_witness :
    (get_analysis_history 5 none demoStore3).length = 3 :=
  (C8_history 5 none [] demoStore3 (by decide)).2.2.2.1

/-- Claim C10: on every delivery outcome the worker attempts the file
removal in its finally block before the retry is raised out of the task,
so (when removal succeeds) the file is absent from the final filesystem
of the attempt, and every redelivered attempt after the first starts on a
filesystem that no longer contains the transient file. -/
theorem C10_cleanup_before_retry (engine : Nat → Except String String)
    (e : Except String String) (times : Nat → Nat × Nat)
    (tid query fp : String) (n0 n1 : Nat) (store storeW : Store) (fs fsW : FS) :
    fp ∉ (analyze_document_task e true tid query fp n0 n1 storeW fsW).fs ∧
    (((workerDelivery engine (fun _ => true) times tid query fp store fs).fsAtStart.drop 1).all
        (fun f2 => !(f2.contains fp)) = true) := by
  constructor
  · rw [task_fs]
    exact not_mem_cleanup_true fp fsW
  · exact runAttempts_fsAtStart_tail engine times tid query fp maxRetries 0 store fs

end FinDoc
